import Mathlib

/-!
Verification of `countdown-bot.js`: a shallow embedding of the countdown
bot's time calculator, message formatter, delivery client and scheduler,
with theorems settling the specification's claims about them.

Instants are modelled as integer millisecond timestamps; the JavaScript
subtraction `TARGET_DATE - now` becomes integer subtraction, and
`Math.floor` of a nonnegative division becomes natural-number division.
-/

namespace CountdownBot

/-- The remaining-duration record returned by `getTimeRemaining`
(fields `days`, `hours`, `minutes`, `seconds`, `hasStarted`). -/
structure TimeRemaining where
  days : Nat
  hours : Nat
  minutes : Nat
  seconds : Nat
  hasStarted : Bool
deriving DecidableEq, Repr

/-- Embedding of `getTimeRemaining` from `countdown-bot.js`, parametrised by
`difference = TARGET_DATE - now` in milliseconds (the JS code reads the clock
itself; the shallow embedding takes the difference as input).
If `difference <= 0` it returns all zeros with `hasStarted = true`; otherwise
it decomposes the positive difference with `Math.floor` divisions. -/
def getTimeRemaining (difference : Int) : TimeRemaining :=
  if difference ≤ 0 then
    { days := 0, hours := 0, minutes := 0, seconds := 0, hasStarted := true }
  else
    let d := difference.toNat
    { days := d / (1000 * 60 * 60 * 24)
      hours := (d % (1000 * 60 * 60 * 24)) / (1000 * 60 * 60)
      minutes := (d % (1000 * 60 * 60)) / (1000 * 60)
      seconds := (d % (1000 * 60)) / 1000
      hasStarted := false }

/-- The spec's `computeRemaining(now, target)`: the calculator applied to the
difference `target - now`, as the JS code computes it. -/
def computeRemaining (now target : Int) : TimeRemaining :=
  getTimeRemaining (target - now)

/-- C1: if `target - now <= 0` the calculator returns all-zero fields with
`reached = true`; whenever `reached` (`hasStarted`) is true all numeric
fields are zero; and at `now = target - 1` ms it returns `reached = false`
with all four numeric fields zero. -/
theorem reached_all_zero (now target : Int) :
    (target - now ≤ 0 →
      computeRemaining now target =
        { days := 0, hours := 0, minutes := 0, seconds := 0, hasStarted := true }) ∧
    (∀ diff : Int, (getTimeRemaining diff).hasStarted = true →
      (getTimeRemaining diff).days = 0 ∧ (getTimeRemaining diff).hours = 0 ∧
      (getTimeRemaining diff).minutes = 0 ∧ (getTimeRemaining diff).seconds = 0) ∧
    computeRemaining (target - 1) target =
      { days := 0, hours := 0, minutes := 0, seconds := 0, hasStarted := false } := by
  refine ⟨fun h => ?_, fun diff hd => ?_, ?_⟩
  · simp [computeRemaining, getTimeRemaining, h]
  · unfold getTimeRemaining at hd ⊢
    by_cases h : diff ≤ 0
    · simp [h]
    · simp [h] at hd
  · have h1 : target - (target - 1) = 1 := by ring
    simp [computeRemaining, h1, getTimeRemaining]

/-- Witness for C1 at `now = 5`, `target = 3` (difference `-2 ≤ 0`), at the
reached output of `difference = -7`, and at the 1 ms boundary with
`target = 3`. -/
theorem reached_all_zero_witness :
    computeRemaining 5 3 =
      { days := 0, hours := 0, minutes := 0, seconds := 0, hasStarted := true } ∧
    ((getTimeRemaining (-7)).days = 0 ∧ (getTimeRemaining (-7)).hours = 0 ∧
      (getTimeRemaining (-7)).minutes = 0 ∧ (getTimeRemaining (-7)).seconds = 0) ∧
    computeRemaining (3 - 1) 3 =
      { days := 0, hours := 0, minutes := 0, seconds := 0, hasStarted := false } :=
  ⟨(reached_all_zero 5 3).1 (by decide),
   (reached_all_zero 5 3).2.1 (-7) (by decide),
   (reached_all_zero 5 3).2.2⟩

/-- C2: for `now < target`, the calculator returns `reached = false` with the
standard millisecond decomposition, the hour/minute/second fields are within
their ranges, and the fields reconstruct the difference truncated to whole
seconds. -/
theorem remaining_decomposition (now target : Int) (h : now < target) :
    computeRemaining now target =
      { days := (target - now).toNat / 86400000,
        hours := ((target - now).toNat % 86400000) / 3600000,
        minutes := ((target - now).toNat % 3600000) / 60000,
        seconds := ((target - now).toNat % 60000) / 1000,
        hasStarted := false } ∧
    (computeRemaining now target).hours ≤ 23 ∧
    (computeRemaining now target).minutes ≤ 59 ∧
    (computeRemaining now target).seconds ≤ 59 ∧
    (computeRemaining now target).days * 86400000 +
      (computeRemaining now target).hours * 3600000 +
      (computeRemaining now target).minutes * 60000 +
      (computeRemaining now target).seconds * 1000 =
      ((target - now).toNat / 1000) * 1000 := by
  have hpos : ¬ target - now ≤ 0 := by omega
  have hr : computeRemaining now target =
      { days := (target - now).toNat / 86400000,
        hours := ((target - now).toNat % 86400000) / 3600000,
        minutes := ((target - now).toNat % 3600000) / 60000,
        seconds := ((target - now).toNat % 60000) / 1000,
        hasStarted := false } := by
    simp only [computeRemaining, getTimeRemaining, if_neg hpos]
  refine ⟨hr, ?_, ?_, ?_, ?_⟩ <;> rw [hr] <;> simp only [] <;> omega

/-- Witness for C2 at `now = 0`, `target = 183845000`
(2 days, 3 hours, 4 minutes, 5 seconds). -/
theorem remaining_decomposition_witness :
    computeRemaining 0 183845000 =
      { days := 2, hours := 3, minutes := 4, seconds := 5, hasStarted := false } := by
  have h := (remaining_decomposition 0 183845000 (by decide)).1
  simpa using h

/-! ## Message formatter -/

/-- A JSON value, modelling the JavaScript object literals the formatter
builds (object fields keep insertion order, as `JSON.stringify` does). -/
inductive Json where
  | str : String → Json
  | arr : List Json → Json
  | obj : List (String × Json) → Json

/-- JavaScript's `String.prototype.padStart(n, c)`: left-pad to length `n`
with copies of `c` (a no-op when the string is already long enough). -/
def jsPadStart (s : String) (n : Nat) (c : Char) : String :=
  if s.length < n then String.mk (List.replicate (n - s.length) c) ++ s else s

/-- The `formattedTime` template string of `formatCountdownMessage`:
`HH:MM:SS` with each component zero-padded to two digits. -/
def formattedTime (t : TimeRemaining) : String :=
  jsPadStart (toString t.hours) 2 '0' ++ ":" ++
  jsPadStart (toString t.minutes) 2 '0' ++ ":" ++
  jsPadStart (toString t.seconds) 2 '0'

/-- Embedding of `formatCountdownMessage` from `countdown-bot.js`: the
celebration payload when `hasStarted`, otherwise the four-block countdown
layout (header, intro section, two-field section, context footer). -/
def formatCountdownMessage (t : TimeRemaining) : Json :=
  if t.hasStarted then
    Json.obj [("blocks", Json.arr [
      Json.obj [("type", Json.str "section"),
                ("text", Json.obj [("type", Json.str "mrkdwn"),
                  ("text", Json.str "🎉 *The Dreamers in Tech Hackathon has begun!* 🎉")])]])]
  else
    Json.obj [("blocks", Json.arr [
      Json.obj [("type", Json.str "header"),
                ("text", Json.obj [("type", Json.str "plain_text"),
                  ("text", Json.str "🚀 Dreamers in Tech Hackathon Countdown")])],
      Json.obj [("type", Json.str "section"),
                ("text", Json.obj [("type", Json.str "mrkdwn"),
                  ("text", Json.str "*Kick-off Ceremony begins in:*")])],
      Json.obj [("type", Json.str "section"),
                ("fields", Json.arr [
                  Json.obj [("type", Json.str "mrkdwn"),
                    ("text", Json.str ("*Days*\n" ++ toString t.days))],
                  Json.obj [("type", Json.str "mrkdwn"),
                    ("text", Json.str ("*Time (HH:MM:SS)*\n" ++ formattedTime t))]])],
      Json.obj [("type", Json.str "context"),
                ("elements", Json.arr [
                  Json.obj [("type", Json.str "mrkdwn"),
                    ("text", Json.str "📅 Friday, July 18 • 5pm PST / 7pm CST / 8pm EST")]])]])]

/-- Any number below 100 zero-pads to exactly two characters. -/
theorem padStart_two_digits : ∀ n : Nat, n < 100 → (jsPadStart (toString n) 2 '0').length = 2 := by
  decide

/-- C3: when `reached` the formatter emits the single celebratory section
block only; otherwise it emits the fixed header, the introductory line, the
two-field row (days as integer text, time-of-day zero-padded to two digits
per component) and the fixed three-time-zone footer; and the decomposition
`{days:2, hours:3, minutes:4, seconds:5}` renders as `"03:04:05"`. -/
theorem formatter_layout (t : TimeRemaining) :
    (t.hasStarted = true →
      formatCountdownMessage t =
        Json.obj [("blocks", Json.arr [
          Json.obj [("type", Json.str "section"),
                    ("text", Json.obj [("type", Json.str "mrkdwn"),
                      ("text", Json.str "🎉 *The Dreamers in Tech Hackathon has begun!* 🎉")])]])]) ∧
    (t.hasStarted = false →
      formatCountdownMessage t =
        Json.obj [("blocks", Json.arr [
          Json.obj [("type", Json.str "header"),
                    ("text", Json.obj [("type", Json.str "plain_text"),
                      ("text", Json.str "🚀 Dreamers in Tech Hackathon Countdown")])],
          Json.obj [("type", Json.str "section"),
                    ("text", Json.obj [("type", Json.str "mrkdwn"),
                      ("text", Json.str "*Kick-off Ceremony begins in:*")])],
          Json.obj [("type", Json.str "section"),
                    ("fields", Json.arr [
                      Json.obj [("type", Json.str "mrkdwn"),
                        ("text", Json.str ("*Days*\n" ++ toString t.days))],
                      Json.obj [("type", Json.str "mrkdwn"),
                        ("text", Json.str ("*Time (HH:MM:SS)*\n" ++
                          (jsPadStart (toString t.hours) 2 '0' ++ ":" ++
                           jsPadStart (toString t.minutes) 2 '0' ++ ":" ++
                           jsPadStart (toString t.seconds) 2 '0')))]])],
          Json.obj [("type", Json.str "context"),
                    ("elements", Json.arr [
                      Json.obj [("type", Json.str "mrkdwn"),
                        ("text", Json.str "📅 Friday, July 18 • 5pm PST / 7pm CST / 8pm EST")]])]])] ∧
      (t.hours ≤ 23 → (jsPadStart (toString t.hours) 2 '0').length = 2) ∧
      (t.minutes ≤ 59 → (jsPadStart (toString t.minutes) 2 '0').length = 2) ∧
      (t.seconds ≤ 59 → (jsPadStart (toString t.seconds) 2 '0').length = 2)) ∧
    formattedTime { days := 2, hours := 3, minutes := 4, seconds := 5,
                    hasStarted := false } = "03:04:05" := by
  refine ⟨fun h => ?_, fun h => ⟨?_, fun hh => ?_, fun hm => ?_, fun hs => ?_⟩, by decide⟩
  · simp [formatCountdownMessage, h]
  · simp [formatCountdownMessage, formattedTime, h]
  · exact padStart_two_digits t.hours (by omega)
  · exact padStart_two_digits t.minutes (by omega)
  · exact padStart_two_digits t.seconds (by omega)

/-- Witness for C3 at the decomposition `{days:2, hours:3, minutes:4,
seconds:5}` and at the all-zero reached decomposition. -/
theorem formatter_layout_witness :
    formatCountdownMessage { days := 0, hours := 0, minutes := 0, seconds := 0,
                             hasStarted := true } =
      Json.obj [("blocks", Json.arr [
        Json.obj [("type", Json.str "section"),
                  ("text", Json.obj [("type", Json.str "mrkdwn"),
                    ("text", Json.str "🎉 *The Dreamers in Tech Hackathon has begun!* 🎉")])]])] ∧
    (jsPadStart (toString 3) 2 '0').length = 2 ∧
    formatCountdownMessage { days := 2, hours := 3, minutes := 4, seconds := 5,
                             hasStarted := false } =
      Json.obj [("blocks", Json.arr [
        Json.obj [("type", Json.str "header"),
                  ("text", Json.obj [("type", Json.str "plain_text"),
                    ("text", Json.str "🚀 Dreamers in Tech Hackathon Countdown")])],
        Json.obj [("type", Json.str "section"),
                  ("text", Json.obj [("type", Json.str "mrkdwn"),
                    ("text", Json.str "*Kick-off Ceremony begins in:*")])],
        Json.obj [("type", Json.str "section"),
                  ("fields", Json.arr [
                    Json.obj [("type", Json.str "mrkdwn"),
                      ("text", Json.str "*Days*\n2")],
                    Json.obj [("type", Json.str "mrkdwn"),
                      ("text", Json.str "*Time (HH:MM:SS)*\n03:04:05")]])],
        Json.obj [("type", Json.str "context"),
                  ("elements", Json.arr [
                    Json.obj [("type", Json.str "mrkdwn"),
                      ("text", Json.str "📅 Friday, July 18 • 5pm PST / 7pm CST / 8pm EST")]])]])] := by
  have h0 := (formatter_layout { days := 0, hours := 0, minutes := 0, seconds := 0,
                                 hasStarted := true }).1 rfl
  have h2 := (formatter_layout { days := 2, hours := 3, minutes := 4, seconds := 5,
                                 hasStarted := false }).2.1 rfl
  exact ⟨h0, h2.2.1 (by decide), by simpa using h2.1⟩

/-- C9: the formatter is pure and deterministic — its output is a function of
the remaining-duration input alone, so equal inputs give structurally
identical payloads. -/
theorem formatter_deterministic (d₁ d₂ : TimeRemaining) (h : d₁ = d₂) :
    formatCountdownMessage d₁ = formatCountdownMessage d₂ := by
  rw [h]

/-- Witness for C9 at the all-zero reached duration. -/
theorem formatter_deterministic_witness :
    formatCountdownMessage { days := 0, hours := 0, minutes := 0, seconds := 0,
                             hasStarted := true } =
      formatCountdownMessage { days := 0, hours := 0, minutes := 0, seconds := 0,
                               hasStarted := true } :=
  formatter_deterministic _ _ rfl

/-! ## Delivery client -/

/-- One lowercase hexadecimal digit. -/
def hexDigit (n : Nat) : Char :=
  if n < 10 then Char.ofNat (48 + n) else Char.ofNat (87 + n)

/-- Four-digit lowercase hex, as in JSON `\uXXXX` escapes. -/
def hex4 (n : Nat) : String :=
  String.mk [hexDigit (n / 4096 % 16), hexDigit (n / 256 % 16),
             hexDigit (n / 16 % 16), hexDigit (n % 16)]

/-- `JSON.stringify`'s escaping of one character inside a string literal:
quote, backslash and control characters are escaped; everything else,
emoji included, is emitted as-is. -/
def escapeChar (c : Char) : String :=
  if c = '"' then "\\\""
  else if c = '\\' then "\\\\"
  else if c = Char.ofNat 8 then "\\b"
  else if c = Char.ofNat 9 then "\\t"
  else if c = Char.ofNat 10 then "\\n"
  else if c = Char.ofNat 12 then "\\f"
  else if c = Char.ofNat 13 then "\\r"
  else if c.toNat < 32 then "\\u" ++ hex4 c.toNat
  else String.singleton c

/-- A JSON string literal: the escaped characters between double quotes. -/
def quoteString (s : String) : String :=
  "\"" ++ String.join (s.data.map escapeChar) ++ "\""

mutual

/-- `JSON.stringify` of a JSON value: no whitespace, object fields in
insertion order (the serialization `sendToSlack` posts). -/
def jsonStringify : Json → String
  | Json.str s => quoteString s
  | Json.arr xs => "[" ++ stringifyItems xs ++ "]"
  | Json.obj fs => "\x7b" ++ stringifyFields fs ++ "\x7d"

/-- Comma-separated serialization of array items. -/
def stringifyItems : List Json → String
  | [] => ""
  | [x] => jsonStringify x
  | x :: y :: xs => jsonStringify x ++ "," ++ stringifyItems (y :: xs)

/-- Comma-separated serialization of object fields. -/
def stringifyFields : List (String × Json) → String
  | [] => ""
  | [(k, v)] => quoteString k ++ ":" ++ jsonStringify v
  | (k, v) :: f :: fs => quoteString k ++ ":" ++ jsonStringify v ++ "," ++ stringifyFields (f :: fs)

end

/-- UTF-16 code units of a character; JavaScript's `String.length` counts
these (characters above U+FFFF are a surrogate pair). -/
def utf16Units (c : Char) : Nat :=
  if c.toNat < 65536 then 1 else 2

/-- JavaScript `string.length`: the number of UTF-16 code units. -/
def jsLength (s : String) : Nat :=
  (s.data.map utf16Units).sum

/-- UTF-8 size of a character in bytes — what the socket transmits, since
`req.write(data)` encodes the string as UTF-8. -/
def utf8Bytes (c : Char) : Nat :=
  if c.toNat < 128 then 1
  else if c.toNat < 2048 then 2
  else if c.toNat < 65536 then 3
  else 4

/-- The byte length of a string encoded as UTF-8. -/
def utf8Length (s : String) : Nat :=
  (s.data.map utf8Bytes).sum

/-- The components of the `URL` object `new URL(SLACK_WEBHOOK_URL)` that are
relevant to `sendToSlack`: it reads `hostname` and `pathname`; `search`
(the query string) and `hash` (the fragment) exist on the object but are
never read. -/
structure ParsedUrl where
  hostname : String
  pathname : String
  search : String
  hash : String
deriving DecidableEq, Repr

/-- The `options` object `sendToSlack` passes to `https.request`. -/
structure RequestOptions where
  hostname : String
  path : String
  method : String
  contentType : String
  contentLength : Nat
deriving DecidableEq, Repr

/-- How `sendToSlack` builds its request options from the parsed webhook URL
and the serialized body `data`: the path is `url.pathname` and the
`Content-Length` header is JavaScript's `data.length` in UTF-16 code
units. -/
def requestOptions (url : ParsedUrl) (data : String) : RequestOptions :=
  { hostname := url.hostname
    path := url.pathname
    method := "POST"
    contentType := "application/json"
    contentLength := jsLength data }

/-- The settled outcome of `sendToSlack`'s response handler: status 200
resolves with the raw response body; any other status rejects with
`Error` whose message is `"Slack API returned status " + statusCode`
(the rejection is modelled by that message string). -/
def sendToSlackOutcome (status : Nat) (body : String) : Except String String :=
  if status = 200 then Except.ok body
  else Except.error ("Slack API returned status " ++ toString status)

/-- The console line `sendToSlack` emits when the response ends. -/
def sendToSlackLogs (status : Nat) (body : String) : List String :=
  if status = 200 then ["Successfully sent countdown update to Slack"]
  else ["Slack API error: " ++ toString status ++ " - " ++ body]

/-- A transport-level failure (`req.on('error', ...)`): the promise rejects
with the underlying error itself. -/
def transportOutcome (cause : String) : Except String String :=
  Except.error cause

/-- C4 counterexample: the rejection produced for a non-200 response does not
carry the response body — two different 429 response bodies yield the
identical rejection value, whose message names only the status code. -/
theorem rejection_drops_body :
    sendToSlackOutcome 429 "rate_limited" = sendToSlackOutcome 429 "channel_not_found" ∧
    ("rate_limited" : String) ≠ "channel_not_found" ∧
    sendToSlackOutcome 429 "rate_limited" = Except.error "Slack API returned status 429" := by
  exact ⟨rfl, by decide, rfl⟩

/-- C4 amended: status 200 resolves with the raw response body; any other
status rejects with an error carrying the status code in its message (the
status and body are both logged, but the body is not part of the rejection);
a transport-level failure rejects with the underlying cause itself. -/
theorem delivery_outcomes (status : Nat) (body cause : String) :
    (status = 200 → sendToSlackOutcome status body = Except.ok body) ∧
    (status ≠ 200 →
      sendToSlackOutcome status body =
        Except.error ("Slack API returned status " ++ toString status) ∧
      sendToSlackLogs status body =
        ["Slack API error: " ++ toString status ++ " - " ++ body]) ∧
    transportOutcome cause = Except.error cause := by
  refine ⟨fun h => ?_, fun h => ⟨?_, ?_⟩, rfl⟩
  · simp [sendToSlackOutcome, h]
  · simp [sendToSlackOutcome, h]
  · simp [sendToSlackLogs, h]

/-- Witness for C4 (amended) at a 200 response and a simulated 429
response. -/
theorem delivery_outcomes_witness :
    sendToSlackOutcome 200 "ok" = Except.ok "ok" ∧
    sendToSlackOutcome 429 "rate_limited" = Except.error "Slack API returned status 429" ∧
    sendToSlackLogs 429 "rate_limited" = ["Slack API error: 429 - rate_limited"] := by
  have h200 := (delivery_outcomes 200 "ok" "ECONNREFUSED").1 rfl
  have h429 := (delivery_outcomes 429 "rate_limited" "ECONNREFUSED").2.1 (by decide)
  exact ⟨h200, by simpa using h429.1, by simpa using h429.2⟩

/-- The serialized body of the celebratory payload the bot posts once the
target is reached (it contains two four-byte emoji characters). -/
def celebrationBody : String :=
  jsonStringify (formatCountdownMessage
    { days := 0, hours := 0, minutes := 0, seconds := 0, hasStarted := true })

/-- C5: the `Content-Length` header `sendToSlack` sends is `data.length`,
the UTF-16 code-unit count, while the body is transmitted UTF-8-encoded;
for the celebratory payload the actual byte length exceeds the header by 4
(2 extra bytes per emoji), so the header is not the actual byte length. -/
theorem content_length_mismatch :
    (requestOptions
        { hostname := "hooks.slack.com", pathname := "/services/T0/B0/X0",
          search := "", hash := "" } celebrationBody).contentLength =
      jsLength celebrationBody ∧
    jsLength celebrationBody + 4 = utf8Length celebrationBody ∧
    jsLength celebrationBody ≠ utf8Length celebrationBody := by
  exact ⟨rfl, by decide, by decide⟩

/-- C10: the outbound request path is built from the parsed URL's `pathname`
alone, so the query string and fragment of the configured webhook URL are
dropped from the POST request — request options are identical whatever the
`search` and `hash` components hold. -/
theorem request_path_drops_query (url : ParsedUrl) (data s f : String) :
    (requestOptions url data).path = url.pathname ∧
    requestOptions { url with search := s, hash := f } data = requestOptions url data := by
  exact ⟨rfl, rfl⟩

/-! ## Scheduler / driver -/

/-- The scheduler state: whether the repeating `setInterval` timer is
armed. -/
structure SchedulerState where
  timerActive : Bool
deriving DecidableEq, Repr

/-- The observable result of one tick: the scheduler state afterwards, the
lines logged, and whether an error escaped the tick. -/
structure TickResult where
  state : SchedulerState
  logs : List String
  uncaught : Bool
deriving DecidableEq, Repr

/-- Embedding of one `updateCountdown` tick, parametrised by the tick's
computed `hasStarted` flag and its settled delivery outcome. On a fulfilled
delivery the tick clears the interval exactly when `hasStarted`; on a
rejected delivery the `await` throws, control jumps to the `catch` block
which logs the failure, and the `clearInterval` line is never reached. The
surrounding `try`/`catch` means no error escapes the tick. -/
def updateCountdown (hasStarted : Bool) (delivery : Except String String)
    (s : SchedulerState) : TickResult :=
  match delivery with
  | Except.ok _ =>
    if hasStarted then
      { state := { timerActive := false },
        logs := ["Event has started! Stopping countdown updates."],
        uncaught := false }
    else
      { state := s, logs := [], uncaught := false }
  | Except.error e =>
    { state := s, logs := ["Failed to update countdown: " ++ e], uncaught := false }

/-- Run a list of scheduled ticks (each given by its computed flag and its
delivery outcome) from a scheduler state, counting how many pipeline
invocations actually occur: `setInterval` fires a tick only while the
interval is armed. -/
def runTicksCount : List (Bool × Except String String) → SchedulerState → Nat
  | [], _ => 0
  | (h, d) :: rest, s =>
    if s.timerActive then 1 + runTicksCount rest (updateCountdown h d s).state
    else 0

/-- C6 counterexample: a tick that computes `reached = true` but whose
delivery attempt completes by failing does NOT cancel the repeating timer
(`clearInterval` is skipped by the thrown `await`), and a further pipeline
invocation occurs on the next interval firing. -/
theorem reached_failed_delivery_keeps_timer :
    (updateCountdown true (Except.error "socket hang up")
        { timerActive := true }).state.timerActive = true ∧
    runTicksCount
        [(true, Except.error "socket hang up"), (true, Except.error "socket hang up")]
        { timerActive := true } = 2 := by
  exact ⟨rfl, rfl⟩

/-- C6 amended: once a tick computes `reached = true` AND its delivery
succeeds, the repeating timer is cancelled; the stopped state is terminal —
no further pipeline ticks ever occur and no tick re-arms the timer. A
reached tick whose delivery fails leaves the timer armed. -/
theorem reached_success_stops_timer (b : String) (s : SchedulerState)
    (ticks : List (Bool × Except String String)) (h : Bool)
    (d : Except String String) :
    (updateCountdown true (Except.ok b) s).state.timerActive = false ∧
    runTicksCount ticks { timerActive := false } = 0 ∧
    (updateCountdown h d { timerActive := false }).state.timerActive = false := by
  refine ⟨rfl, ?_, ?_⟩
  · cases ticks with
    | nil => rfl
    | cons t rest =>
      rcases t with ⟨th, td⟩
      simp [runTicksCount]
  · cases d with
    | ok v => cases h <;> simp [updateCountdown]
    | error e => simp [updateCountdown]

/-- C7: a tick whose delivery fails while `reached` is false catches and
logs the error, ends with the scheduler state unchanged (timer still
armed), lets no error escape, and the schedule continues with the next
tick. -/
theorem delivery_failure_recovered (e : String) (s : SchedulerState)
    (rest : List (Bool × Except String String)) :
    updateCountdown false (Except.error e) s =
      { state := s, logs := ["Failed to update countdown: " ++ e],
        uncaught := false } ∧
    runTicksCount ((false, Except.error e) :: rest) { timerActive := true } =
      1 + runTicksCount rest { timerActive := true } := by
  refine ⟨rfl, ?_⟩
  simp [runTicksCount, updateCountdown]

/-! ## Startup configuration validation -/

/-- The outcome of the startup sequence: either the process exits with a
status code, the diagnostics printed and the number of ticks that ran
before exiting, or the bot is running with its first tick fired
immediately. -/
inductive StartupOutcome where
  | exited (code : Nat) (diagnostics : List String) (ticksRun : Nat)
  | running (firstTickImmediate : Bool)
deriving DecidableEq, Repr

/-- JavaScript falsiness of the `SLACK_WEBHOOK_URL` binding, as tested by
`if (!SLACK_WEBHOOK_URL)`: `undefined` (variable absent, `none`) and the
empty string are both falsy. -/
def jsFalsy : Option String → Bool
  | none => true
  | some s => s == ""

/-- Embedding of the startup sequence of `countdown-bot.js`: the
configuration check runs before the first `updateCountdown()` call, so a
falsy endpoint makes the process exit with status 1 after printing two
diagnostic lines and before any tick runs; otherwise startup proceeds and
the first tick executes immediately (before `setInterval` is armed). -/
def startup (env : Option String) : StartupOutcome :=
  if jsFalsy env then
    StartupOutcome.exited 1
      ["ERROR: SLACK_WEBHOOK_URL environment variable is not set",
       "Please set it to your Slack incoming webhook URL"] 0
  else
    StartupOutcome.running true

/-- C8 counterexample: an environment where the webhook variable is present
but holds the empty string still exits — presence alone does not make
startup proceed, since the code tests JavaScript truthiness. -/
theorem present_empty_endpoint_exits :
    (some "" : Option String).isSome = true ∧
    startup (some "") =
      StartupOutcome.exited 1
        ["ERROR: SLACK_WEBHOOK_URL environment variable is not set",
         "Please set it to your Slack incoming webhook URL"] 0 ∧
    startup (some "") ≠ StartupOutcome.running true := by
  exact ⟨rfl, rfl, by decide⟩

/-- C8 amended: if the webhook variable is absent or empty (falsy), the
process exits with status 1 and a diagnostic before any tick runs; if it
holds a non-empty value, startup proceeds and the first tick executes
immediately. -/
theorem startup_validation (env : Option String) :
    (jsFalsy env = true →
      startup env =
        StartupOutcome.exited 1
          ["ERROR: SLACK_WEBHOOK_URL environment variable is not set",
           "Please set it to your Slack incoming webhook URL"] 0) ∧
    (jsFalsy env = false → startup env = StartupOutcome.running true) := by
  constructor <;> intro h <;> simp [startup, h]

/-- Witness for C8 (amended): absent variable exits, a non-empty URL runs. -/
theorem startup_validation_witness :
    startup none =
      StartupOutcome.exited 1
        ["ERROR: SLACK_WEBHOOK_URL environment variable is not set",
         "Please set it to your Slack incoming webhook URL"] 0 ∧
    startup (some "https://hooks.slack.com/services/T0/B0/X0") =
      StartupOutcome.running true :=
  ⟨(startup_validation none).1 rfl,
   (startup_validation (some "https://hooks.slack.com/services/T0/B0/X0")).2 rfl⟩

end CountdownBot
